import Mathlib

set_option maxRecDepth 2000

namespace WebsocketCryptIT

/-! Shallow embedding of src/src/resilientEventListener.ts.

The listener keeps closure state (ws, pingTimeout, keepAliveInterval,
stopped, reconnectDelay) and installs handlers onopen / onclose /
onmessage / on unexpected-response; stop() sets the stopped flag, closes
the socket and clears the two stored timers.  We model the message
handler as a pure function on per-connection state, and the lifecycle
as a step function over discrete events (handler invocations and timer
firings), exactly as the single-threaded event loop delivers them. -/

/-- JSON values as produced by JSON.parse.  Numbers are modelled as Int,
which is exact for the request ids 1 and 2 the handler compares against. -/
inductive JVal where
  | null
  | bool (b : Bool)
  | num (n : Int)
  | str (s : String)
  | arr (xs : List JVal)
  | obj (fields : List (String × JVal))

/-- JS property access `v.k` for a receiver that is not null/undefined:
object lookup, and undefined (`none`) on any non-object receiver.
Access on null or undefined throws; `handleParsed` models those sites
explicitly and only calls `jsGet` on receivers its guards proved safe. -/
def jsGet : JVal → String → Option JVal
  | .obj fields, k => fields.lookup k
  | _, _ => none

/-- JS optional chaining `v?.k`: undefined when the receiver is null. -/
def jsGetOpt : JVal → String → Option JVal
  | .null, _ => none
  | v, k => jsGet v k

/-- JS strict equality `===` between two values that may be undefined
(`none`).  Primitives compare by value; objects and arrays compare by
reference, and the two sides here always come from distinct JSON.parse
results (or a value saved from an earlier frame), so they are distinct
references and compare false. -/
def sEq : Option JVal → Option JVal → Bool
  | none, none => true
  | some (.null), some (.null) => true
  | some (.bool a), some (.bool b) => a == b
  | some (.num a), some (.num b) => a == b
  | some (.str a), some (.str b) => a == b
  | _, _ => false

/-- Per-connection state read and written by ws.onmessage:
`subscriptionId` is the local `let subscriptionId: string` (undefined
until assigned, hence Option), `pingTimeout` records whether the
pong-deadline timer is armed, `stopped` the closure's stopped flag
(never touched by this handler). -/
structure MsgState where
  subscriptionId : Option JVal
  pingTimeout : Bool
  stopped : Bool

/-- Outcome of one ws.onmessage invocation: the successor state, whether
contract.interface.parseLog was invoked, whether the args.callback call
site was reached, which non-fatal log was emitted, and whether the
handler threw an uncaught TypeError. -/
structure MsgResult where
  state : MsgState
  decoderCalled : Bool
  callbackCalled : Bool
  warned : Bool
  errorLogged : Bool
  faulted : Bool

def MsgResult.skip (s : MsgState) : MsgResult :=
  ⟨s, false, false, false, false, false⟩

def MsgResult.fault (s : MsgState) : MsgResult :=
  ⟨s, false, false, false, false, true⟩

/-- The demultiplexing chain of ws.onmessage after a successful parse:
  if (parsedData?.id === request.id) subscriptionId = parsedData.result;
  else if (parsedData?.id === ping.id && parsedData?.result === true) clear pingTimeout;
  else if (parsedData?.method === 'eth_subscription'
           && parsedData.params.subscription === subscriptionId)
    parseLog(parsedData.params.result); callback(eventLog);
The third guard reads `parsedData.params.subscription` without optional
chaining: when `params` is absent (undefined) or null, the property read
throws a TypeError, modelled as `MsgResult.fault`. -/
def handleParsed (s : MsgState) (v : JVal) : MsgResult :=
  if sEq (jsGetOpt v "id") (some (.num 1)) then
    { state := { s with subscriptionId := jsGet v "result" },
      decoderCalled := false, callbackCalled := false,
      warned := false, errorLogged := false, faulted := false }
  else if sEq (jsGetOpt v "id") (some (.num 2))
          && sEq (jsGetOpt v "result") (some (.bool true)) then
    { state := { s with pingTimeout := false },
      decoderCalled := false, callbackCalled := false,
      warned := false, errorLogged := false, faulted := false }
  else if sEq (jsGetOpt v "method") (some (.str "eth_subscription")) then
    match jsGet v "params" with
    | none => MsgResult.fault s
    | some .null => MsgResult.fault s
    | some p =>
      if sEq (jsGet p "subscription") s.subscriptionId then
        { state := s, decoderCalled := true, callbackCalled := true,
          warned := false, errorLogged := false, faulted := false }
      else MsgResult.skip s
  else MsgResult.skip s

/-- An inbound frame as seen by ws.onmessage: a text or Buffer payload
together with the result of JSON.parse on it (`none` when parsing
throws), or a payload of any other type. -/
inductive Frame where
  | strData (parsed : Option JVal)
  | bufData (parsed : Option JVal)
  | otherData

/-- ws.onmessage: unexpected payload types are warned about and dropped,
JSON.parse failures are error-logged and dropped, parsed values go to
the demultiplexing chain. -/
def handleMessage (s : MsgState) (f : Frame) : MsgResult :=
  match f with
  | .strData none => ⟨s, false, false, false, true, false⟩
  | .strData (some v) => handleParsed s v
  | .bufData none => ⟨s, false, false, false, true, false⟩
  | .bufData (some v) => handleParsed s v
  | .otherData => ⟨s, false, false, true, false, false⟩

def DEFAULT_EXPECTED_PONG_BACK : Nat := 15000

def DEFAULT_KEEP_ALIVE_CHECK_INTERVAL : Nat := 60 * 1000

/-- The JS expression `x || d` for an optional number x: undefined and 0
are falsy and yield the default. -/
def orDefault (v : Option Nat) (d : Nat) : Nat :=
  match v with
  | none => d
  | some n => if n = 0 then d else n

/-- The configuration fields the lifecycle reads (the remaining args are
opaque capabilities). -/
structure ResilientEventListenerArgs where
  keepAliveCheckInterval : Option Nat
  expectedPongBack : Option Nat

/-- The closure state of resilientEventListener plus observation
counters.  `ws = none` is the null handle; `some b` a socket whose
readyState is OPEN iff b.  `reconnectPending` counts live
setTimeout(connect, ...) timers — their handles are discarded by the
source, so nothing can clear them.  `scheduledDelays` records the delay
argument of each such setTimeout in order. -/
structure LState where
  stopped : Bool
  ws : Option Bool
  keepAliveArmed : Bool
  keepAliveMs : Nat
  pingTimeoutArmed : Bool
  pingTimeoutMs : Nat
  reconnectDelay : Nat
  reconnectPending : Nat
  scheduledDelays : List Nat
  socketsCreated : Nat
  pingsSent : Nat
  subscribesSent : Nat
  errorLogs : Nat
  terminations : Nat

def initState : LState :=
  { stopped := false, ws := none, keepAliveArmed := false, keepAliveMs := 0,
    pingTimeoutArmed := false, pingTimeoutMs := 0, reconnectDelay := 1000,
    reconnectPending := 0, scheduledDelays := [], socketsCreated := 0,
    pingsSent := 0, subscribesSent := 0, errorLogs := 0, terminations := 0 }

/-- connect(): returns at once when stopped, otherwise creates a new
WebSocket (readyState CONNECTING) and installs the handlers. -/
def connect (_cfg : ResilientEventListenerArgs) (s : LState) : LState :=
  if s.stopped then s
  else { s with ws := some false, socketsCreated := s.socketsCreated + 1 }

/-- stop(): sets the permanent stopped flag, closes and nulls the
socket, clears keepAliveInterval and pingTimeout.  The pending reconnect
setTimeout handles were never stored, so reconnectPending is untouched. -/
def stop (s : LState) : LState :=
  { s with stopped := true, ws := none,
           keepAliveArmed := false, pingTimeoutArmed := false }

/-- The backoff update on close: reconnectDelay = Math.min(reconnectDelay * 2, 30000). -/
def nextDelay (d : Nat) : Nat := min (d * 2) 30000

/-- Discrete events delivered to one listener instance: handler
invocations and timer firings. -/
inductive Ev where
  | onopen
  | onclose
  | reconnectTimer
  | keepAliveTick
  | pongTimeout
  | stopCall
  | unexpectedResponse

/-- One event-loop dispatch.
onopen: resets reconnectDelay, then `ws!.send(request)` and the arming
of keepAliveInterval run only when ws is non-null (on a null handle the
send throws after the reset).
onclose: clears both stored timers, nulls ws, and unless stopped
schedules setTimeout(connect, reconnectDelay) and doubles the delay.
reconnectTimer: one pending setTimeout(connect, _) fires and runs
connect, which re-checks stopped.
keepAliveTick: the interval callback pings only when ws is non-null and
OPEN, arming the pong-deadline timer.
pongTimeout: the deadline callback terminates ws when non-null.
stopCall / unexpectedResponse: stop(), the latter after an error log
(the unexpected-response handler is registered on a live socket). -/
def step (cfg : ResilientEventListenerArgs) (s : LState) (e : Ev) : LState :=
  match e with
  | .onopen =>
    match s.ws with
    | some _ =>
      { s with ws := some true, reconnectDelay := 1000,
               subscribesSent := s.subscribesSent + 1,
               keepAliveArmed := true,
               keepAliveMs := orDefault cfg.keepAliveCheckInterval
                                DEFAULT_KEEP_ALIVE_CHECK_INTERVAL }
    | none => { s with reconnectDelay := 1000 }
  | .onclose =>
    if s.stopped then
      { s with keepAliveArmed := false, pingTimeoutArmed := false, ws := none }
    else
      { s with keepAliveArmed := false, pingTimeoutArmed := false, ws := none,
               reconnectPending := s.reconnectPending + 1,
               scheduledDelays := s.scheduledDelays ++ [s.reconnectDelay],
               reconnectDelay := nextDelay s.reconnectDelay }
  | .reconnectTimer =>
    if s.reconnectPending = 0 then s
    else connect cfg { s with reconnectPending := s.reconnectPending - 1 }
  | .keepAliveTick =>
    if s.keepAliveArmed then
      match s.ws with
      | some true =>
        { s with pingsSent := s.pingsSent + 1, pingTimeoutArmed := true,
                 pingTimeoutMs := orDefault cfg.expectedPongBack
                                    DEFAULT_EXPECTED_PONG_BACK }
      | _ => s
    else s
  | .pongTimeout =>
    if s.pingTimeoutArmed then
      match s.ws with
      | some _ => { s with pingTimeoutArmed := false,
                           terminations := s.terminations + 1 }
      | none => { s with pingTimeoutArmed := false }
    else s
  | .stopCall => stop s
  | .unexpectedResponse =>
    match s.ws with
    | some _ => stop { s with errorLogs := s.errorLogs + 1 }
    | none => s

/-- Folding a sequence of events over the step function. -/
def run (cfg : ResilientEventListenerArgs) (s : LState) (evs : List Ev) : LState :=
  evs.foldl (step cfg) s

/-- resilientEventListener(args): the constructor calls connect() once. -/
def mk (cfg : ResilientEventListenerArgs) : LState := connect cfg initState

/-- Projection used to compare subscription identifiers concretely. -/
def asStr : Option JVal → Option String
  | some (.str s) => some s
  | _ => none

/- Concrete configurations and states used by witnesses and counterexamples. -/

def cfg0 : ResilientEventListenerArgs := ⟨none, none⟩

def cfgZero : ResilientEventListenerArgs := ⟨some 0, some 0⟩

def msg0 : MsgState := ⟨none, false, false⟩

def msgAbc : MsgState := ⟨some (.str "0xabc"), false, false⟩

def msgAbcPing : MsgState := ⟨some (.str "0xabc"), true, false⟩

def dupConfirmFrame : JVal := .obj [("id", .num 1), ("result", .str "0xdef")]

def staleNotifyFrame : JVal :=
  .obj [("method", .str "eth_subscription"),
        ("params", .obj [("subscription", .str "0xdef"),
                         ("result", .str "rawlog")])]

def noParamsNotifyFrame : JVal := .obj [("method", .str "eth_subscription")]

def noSubNotifyFrame : JVal :=
  .obj [("method", .str "eth_subscription"),
        ("params", .obj [("result", .str "rawlog")])]

def pongFalseFrame : JVal := .obj [("id", .num 2), ("result", .bool false)]

def pongTrueFrame : JVal := .obj [("id", .num 2), ("result", .bool true)]

/-! Helper lemmas shared by the lifecycle theorems. -/

/-- Once the stopped flag is set, no single event dispatch clears it or
creates a socket. -/
lemma step_stopped_frozen (cfg : ResilientEventListenerArgs) (s : LState) (e : Ev)
    (h : s.stopped = true) :
    (step cfg s e).stopped = true ∧ (step cfg s e).socketsCreated = s.socketsCreated := by
  cases e <;>
    simp only [step, connect, stop, h] <;>
    (try cases s.ws) <;>
    (try cases s.ws) <;>
    (try split) <;>
    (try split) <;>
    simp_all

/-- Once the stopped flag is set, no sequence of events clears it or
creates a socket. -/
lemma run_stopped_frozen (cfg : ResilientEventListenerArgs) (evs : List Ev) :
    ∀ s : LState, s.stopped = true →
      (run cfg s evs).stopped = true ∧ (run cfg s evs).socketsCreated = s.socketsCreated := by
  induction evs with
  | nil => intro s h; exact ⟨h, rfl⟩
  | cons e rest ih =>
    intro s h
    have hs := step_stopped_frozen cfg s e h
    have hr := ih (step cfg s e) hs.1
    exact ⟨hr.1, hr.2.trans hs.2⟩

/-- Claim C2: after stop() has returned, the stopped flag is set and no
subsequent sequence of events — elapsed timers, close events on
abandoned transports, repeated stop() calls — ever creates a new
WebSocket. -/
theorem c2_stop_halts_socket_creation (cfg : ResilientEventListenerArgs)
    (s : LState) (evs : List Ev) :
    (stop s).stopped = true ∧
    (run cfg (stop s) evs).socketsCreated = s.socketsCreated ∧
    (run cfg (stop s) evs).stopped = true := by
  have h := run_stopped_frozen cfg evs (stop s) rfl
  exact ⟨rfl, h.2.trans rfl, h.1⟩

/-- Claim C7: when the remote endpoint rejects the handshake (the
unexpected-response handler fires on a live socket), the listener logs
the condition and calls stop(); a later close event schedules no
reconnect, and no sequence of further events ever creates a socket. -/
theorem c7_unexpected_response_stops (cfg : ResilientEventListenerArgs)
    (s : LState) (evs : List Ev) (h : s.ws.isSome = true) :
    (step cfg s Ev.unexpectedResponse).stopped = true ∧
    (step cfg s Ev.unexpectedResponse).errorLogs = s.errorLogs + 1 ∧
    (step cfg s Ev.unexpectedResponse).socketsCreated = s.socketsCreated ∧
    (step cfg (step cfg s Ev.unexpectedResponse) Ev.onclose).reconnectPending
      = (step cfg s Ev.unexpectedResponse).reconnectPending ∧
    (run cfg (step cfg s Ev.unexpectedResponse) evs).socketsCreated = s.socketsCreated := by
  cases hw : s.ws with
  | none => rw [hw] at h; simp at h
  | some b =>
    have hs' : step cfg s Ev.unexpectedResponse
        = stop { s with errorLogs := s.errorLogs + 1 } := by
      simp [step, hw]
    rw [hs']
    refine ⟨rfl, rfl, rfl, ?_, ?_⟩
    · simp [step, stop]
    · exact (run_stopped_frozen cfg evs _ rfl).2.trans rfl

/-- Claim C7 witness: the unexpected-response handler on the freshly
created socket stops the listener, logs once, and later events create no
socket. -/
theorem c7_unexpected_response_stops_witness :
    (step cfg0 (mk cfg0) Ev.unexpectedResponse).stopped = true ∧
    (step cfg0 (mk cfg0) Ev.unexpectedResponse).errorLogs = (mk cfg0).errorLogs + 1 ∧
    (step cfg0 (mk cfg0) Ev.unexpectedResponse).socketsCreated = (mk cfg0).socketsCreated ∧
    (step cfg0 (step cfg0 (mk cfg0) Ev.unexpectedResponse) Ev.onclose).reconnectPending
      = (step cfg0 (mk cfg0) Ev.unexpectedResponse).reconnectPending ∧
    (run cfg0 (step cfg0 (mk cfg0) Ev.unexpectedResponse)
        [Ev.onclose, Ev.reconnectTimer]).socketsCreated = (mk cfg0).socketsCreated :=
  c7_unexpected_response_stops cfg0 (mk cfg0) [Ev.onclose, Ev.reconnectTimer] (by decide)

/-- Claim C8 counterexample: after a first close there is one pending
setTimeout(connect, ...) reconnect timer; stop() does not cancel it —
the source never stores its handle — so the pending-timer count stays 1,
refuting the claim that stop() cancels every outstanding timer including
the scheduled-reconnect timer. -/
theorem c8_reconnect_timer_survives_stop :
    ¬ ((stop (run cfg0 (mk cfg0) [Ev.onclose])).reconnectPending = 0) := by
  decide

/-- Claim C8 (amended): stop() cancels the keep-alive interval and the
pong-deadline timer, and transport close likewise cancels both; a
pending scheduled-reconnect timer is not cancelled by stop() (its handle
was discarded), but when it fires after stop it creates no transport
because connect re-checks the stopped flag. -/
theorem c8_stop_cancels_stored_timers (cfg : ResilientEventListenerArgs) (s : LState) :
    (stop s).keepAliveArmed = false ∧
    (stop s).pingTimeoutArmed = false ∧
    (stop s).reconnectPending = s.reconnectPending ∧
    (step cfg s Ev.onclose).keepAliveArmed = false ∧
    (step cfg s Ev.onclose).pingTimeoutArmed = false ∧
    (s.stopped = true →
      (step cfg s Ev.reconnectTimer).socketsCreated = s.socketsCreated) := by
  refine ⟨rfl, rfl, rfl, ?_, ?_, fun h => (step_stopped_frozen cfg s Ev.reconnectTimer h).2⟩
  · simp only [step]
    split <;> rfl
  · simp only [step]
    split <;> rfl

/-- Claim C8 witness: a stopped state with a live pending reconnect
timer; the firing timer creates no socket. -/
theorem c8_stop_cancels_stored_timers_witness :
    (stop (stop (run cfg0 (mk cfg0) [Ev.onclose]))).keepAliveArmed = false ∧
    (step cfg0 (stop (run cfg0 (mk cfg0) [Ev.onclose])) Ev.reconnectTimer).socketsCreated
      = (stop (run cfg0 (mk cfg0) [Ev.onclose])).socketsCreated :=
  ⟨(c8_stop_cancels_stored_timers cfg0 (stop (run cfg0 (mk cfg0) [Ev.onclose]))).1,
   (c8_stop_cancels_stored_timers cfg0 (stop (run cfg0 (mk cfg0) [Ev.onclose]))).2.2.2.2.2 rfl⟩

/-- Claim C1 counterexample: with keepAliveCheckInterval and
expectedPongBack both configured as 0, the JS defaulting expression
`args.keepAliveCheckInterval || DEFAULT` treats 0 as falsy, so the
keep-alive subsystem runs with the default interval rather than being
disabled: after open and one interval tick a ping has been sent and the
pong-deadline timer is armed. -/
theorem c1_zero_interval_still_pings :
    (run cfgZero (mk cfgZero) [Ev.onopen, Ev.keepAliveTick]).pingsSent = 1 ∧
    (run cfgZero (mk cfgZero) [Ev.onopen, Ev.keepAliveTick]).pingTimeoutArmed = true ∧
    ¬ ((run cfgZero (mk cfgZero) [Ev.onopen, Ev.keepAliveTick]).pingsSent = 0) := by
  decide

/-- Claim C1 (amended): the defaults 60000 ms and 15000 ms are used when
keepAliveCheckInterval or expectedPongBack is unset and also when it is
set to 0 (both are falsy under the `||` defaulting); a zero interval
does not disable the keep-alive subsystem — every successful open arms
the keep-alive interval with the resolved value. -/
theorem c1_keepalive_zero_uses_default (cfg : ResilientEventListenerArgs) (s : LState) :
    (cfg.keepAliveCheckInterval = none ∨ cfg.keepAliveCheckInterval = some 0 →
      orDefault cfg.keepAliveCheckInterval DEFAULT_KEEP_ALIVE_CHECK_INTERVAL = 60000) ∧
    (cfg.expectedPongBack = none ∨ cfg.expectedPongBack = some 0 →
      orDefault cfg.expectedPongBack DEFAULT_EXPECTED_PONG_BACK = 15000) ∧
    (s.ws.isSome = true →
      (step cfg s Ev.onopen).keepAliveArmed = true ∧
      (step cfg s Ev.onopen).keepAliveMs
        = orDefault cfg.keepAliveCheckInterval DEFAULT_KEEP_ALIVE_CHECK_INTERVAL) := by
  refine ⟨?_, ?_, ?_⟩
  · rintro (h | h) <;> simp [orDefault, h, DEFAULT_KEEP_ALIVE_CHECK_INTERVAL]
  · rintro (h | h) <;> simp [orDefault, h, DEFAULT_EXPECTED_PONG_BACK]
  · intro h
    cases hw : s.ws with
    | none => rw [hw] at h; simp at h
    | some b => simp [step, hw]

/-- Claim C1 witness: the zero-valued configuration resolves both
values to the defaults, and the open handler arms keep-alive. -/
theorem c1_keepalive_zero_uses_default_witness :
    orDefault cfgZero.keepAliveCheckInterval DEFAULT_KEEP_ALIVE_CHECK_INTERVAL = 60000 ∧
    orDefault cfgZero.expectedPongBack DEFAULT_EXPECTED_PONG_BACK = 15000 ∧
    (step cfgZero (mk cfgZero) Ev.onopen).keepAliveArmed = true :=
  ⟨(c1_keepalive_zero_uses_default cfgZero (mk cfgZero)).1 (Or.inr rfl),
   (c1_keepalive_zero_uses_default cfgZero (mk cfgZero)).2.1 (Or.inr rfl),
   ((c1_keepalive_zero_uses_default cfgZero (mk cfgZero)).2.2 (by decide)).1⟩

/-- Claim C3: the delay scheduled at the n-th consecutive close after a
successful open is min(1000 * 2^n, 30000) ms (n counted from 0): every
open resets reconnectDelay to the base 1000, and every non-stopped close
schedules the current delay and doubles it capped at 30000; in the
concrete scenario the first close schedules 1000 ms and the second
schedules 2000 ms. -/
theorem c3_backoff_doubles_to_cap :
    (∀ n : Nat, nextDelay^[n] 1000 = min (1000 * 2 ^ n) 30000) ∧
    (∀ (cfg : ResilientEventListenerArgs) (s : LState), s.ws.isSome = true →
      (step cfg s Ev.onopen).reconnectDelay = 1000) ∧
    (∀ (cfg : ResilientEventListenerArgs) (s : LState), s.stopped = false →
      (step cfg s Ev.onclose).scheduledDelays = s.scheduledDelays ++ [s.reconnectDelay] ∧
      (step cfg s Ev.onclose).reconnectDelay = nextDelay s.reconnectDelay) ∧
    (run cfg0 (mk cfg0)
        [Ev.onopen, Ev.onclose, Ev.reconnectTimer, Ev.onclose]).scheduledDelays
      = [1000, 2000] := by
  refine ⟨?_, ?_, ?_, by decide⟩
  · intro n
    induction n with
    | zero => simp [nextDelay]
    | succ n ih =>
      rw [Function.iterate_succ_apply', ih, nextDelay, pow_succ]
      omega
  · intro cfg s h
    cases hw : s.ws with
    | none => rw [hw] at h; simp at h
    | some b => simp [step, hw]
  · intro cfg s h
    simp [step, h]

/-- Claim C3 witness: the sixth doubling hits the 30000 cap, the open
handler resets the delay, and the first close schedules the base
delay. -/
theorem c3_backoff_doubles_to_cap_witness :
    nextDelay^[5] 1000 = min (1000 * 2 ^ 5) 30000 ∧
    (step cfg0 (mk cfg0) Ev.onopen).reconnectDelay = 1000 ∧
    (step cfg0 (mk cfg0) Ev.onclose).reconnectDelay = nextDelay (mk cfg0).reconnectDelay :=
  ⟨c3_backoff_doubles_to_cap.1 5,
   c3_backoff_doubles_to_cap.2.1 cfg0 (mk cfg0) (by decide),
   (c3_backoff_doubles_to_cap.2.2.1 cfg0 (mk cfg0) (by decide)).2⟩

/-- Claim C4: evaluation at the failing input.  The parsed frame
with method "eth_subscription" but no params field reaches the third
guard, whose unguarded read of parsedData.params.subscription throws an
uncaught TypeError; the state is nevertheless left unchanged because the
throw precedes every assignment. -/
theorem c4_eth_subscription_without_params_faults :
    (handleMessage msg0 (Frame.strData (some noParamsNotifyFrame))).faulted = true ∧
    (handleMessage msg0 (Frame.strData (some noParamsNotifyFrame))).state.pingTimeout
      = msg0.pingTimeout ∧
    (handleMessage msg0 (Frame.strData (some noParamsNotifyFrame))).state.stopped
      = msg0.stopped := by
  decide

/-- Claim C5: a notification whose params.subscription compares strictly
unequal to the session's current subscription id never reaches the
decoder or the consumer callback, whatever else the frame contains. -/
theorem c5_stale_notification_dropped (s : MsgState) (v : JVal)
    (fs : List (String × JVal))
    (hp : jsGet v "params" = some (.obj fs))
    (hne : sEq (jsGet (.obj fs) "subscription") s.subscriptionId = false) :
    (handleMessage s (Frame.strData (some v))).decoderCalled = false ∧
    (handleMessage s (Frame.strData (some v))).callbackCalled = false := by
  simp only [handleMessage, handleParsed]
  rw [hp]
  split
  · exact ⟨rfl, rfl⟩
  split
  · exact ⟨rfl, rfl⟩
  split
  · simp [hne, MsgResult.skip]
  · exact ⟨rfl, rfl⟩

/-- Claim C5 witness: with session id "0xabc", a notification carrying
subscription "0xdef" is dropped. -/
theorem c5_stale_notification_dropped_witness :
    (handleMessage msgAbc (Frame.strData (some staleNotifyFrame))).decoderCalled = false ∧
    (handleMessage msgAbc (Frame.strData (some staleNotifyFrame))).callbackCalled = false :=
  c5_stale_notification_dropped msgAbc staleNotifyFrame
    [("subscription", JVal.str "0xdef"), ("result", JVal.str "rawlog")] rfl (by decide)

/-- Claim C6 counterexample: with the session id already set to
"0xabc", a second response with id 1 and result "0xdef" is not ignored —
it overwrites the subscription identifier, refuting the claim that a
duplicate confirmation leaves it unchanged. -/
theorem c6_duplicate_confirmation_overwrites :
    ¬ ((handleMessage msgAbc (Frame.strData (some dupConfirmFrame))).state.subscriptionId
        = msgAbc.subscriptionId) :=
  fun h => absurd (congrArg asStr h) (by decide)

/-- Claim C6 (amended): every response whose id strictly equals the
subscribe request id 1 assigns its result field to the session's
subscription identifier; a duplicate confirmation therefore overwrites
the identifier (leaving it unchanged only when the result is the same
value) rather than being ignored. -/
theorem c6_confirmation_overwrites_subscription (s : MsgState) (v : JVal)
    (hid : jsGetOpt v "id" = some (.num 1)) :
    (handleMessage s (Frame.strData (some v))).state.subscriptionId = jsGet v "result" ∧
    (handleMessage s (Frame.strData (some v))).state.pingTimeout = s.pingTimeout ∧
    (handleMessage s (Frame.strData (some v))).state.stopped = s.stopped ∧
    (handleMessage s (Frame.strData (some v))).decoderCalled = false ∧
    (handleMessage s (Frame.strData (some v))).callbackCalled = false ∧
    (handleMessage s (Frame.strData (some v))).faulted = false := by
  simp only [handleMessage, handleParsed]
  simp [hid, sEq]

/-- Claim C6 witness: the duplicate confirmation replaces "0xabc" by
"0xdef". -/
theorem c6_confirmation_overwrites_subscription_witness :
    (handleMessage msgAbc (Frame.strData (some dupConfirmFrame))).state.subscriptionId
      = jsGet dupConfirmFrame "result" ∧
    (handleMessage msgAbc (Frame.strData (some dupConfirmFrame))).state.pingTimeout
      = msgAbc.pingTimeout ∧
    (handleMessage msgAbc (Frame.strData (some dupConfirmFrame))).state.stopped
      = msgAbc.stopped ∧
    (handleMessage msgAbc (Frame.strData (some dupConfirmFrame))).decoderCalled = false ∧
    (handleMessage msgAbc (Frame.strData (some dupConfirmFrame))).callbackCalled = false ∧
    (handleMessage msgAbc (Frame.strData (some dupConfirmFrame))).faulted = false :=
  c6_confirmation_overwrites_subscription msgAbc dupConfirmFrame rfl

/-- Claim C9: before any confirmation has been received the local
subscriptionId is still undefined, and undefined === undefined holds, so
a notification whose params object lacks the subscription field is
treated as matching: the decoder runs and the callback call site is
reached. -/
theorem c9_missing_subscription_matches_unset (s : MsgState) (v : JVal)
    (fs : List (String × JVal))
    (hsub : s.subscriptionId = none)
    (hid : jsGetOpt v "id" = none)
    (hm : jsGetOpt v "method" = some (.str "eth_subscription"))
    (hp : jsGet v "params" = some (.obj fs))
    (hs : jsGet (.obj fs) "subscription" = none) :
    (handleMessage s (Frame.strData (some v))).decoderCalled = true ∧
    (handleMessage s (Frame.strData (some v))).callbackCalled = true ∧
    (handleMessage s (Frame.strData (some v))).faulted = false := by
  simp only [handleMessage, handleParsed]
  rw [hid, hm, hp]
  simp [sEq, hs, hsub]

/-- Claim C9 witness: with an unset session id, a notification whose
params carry only a result is decoded and delivered. -/
theorem c9_missing_subscription_matches_unset_witness :
    (handleMessage msg0 (Frame.strData (some noSubNotifyFrame))).decoderCalled = true ∧
    (handleMessage msg0 (Frame.strData (some noSubNotifyFrame))).callbackCalled = true ∧
    (handleMessage msg0 (Frame.strData (some noSubNotifyFrame))).faulted = false :=
  c9_missing_subscription_matches_unset msg0 noSubNotifyFrame
    [("result", JVal.str "rawlog")] rfl rfl rfl rfl rfl

/-- Claim C10: for a response whose id strictly equals the ping id 2 and
with the pong-deadline timer armed, the timer is cleared exactly when
the result field is strictly the boolean true; for any other result the
whole state — timer included — is left unchanged. -/
theorem c10_pong_cleared_iff_result_true (s : MsgState) (v : JVal)
    (hid : jsGetOpt v "id" = some (.num 2))
    (hpt : s.pingTimeout = true) :
    (sEq (jsGetOpt v "result") (some (.bool true)) = true →
      (handleMessage s (Frame.strData (some v))).state.pingTimeout = false ∧
      (handleMessage s (Frame.strData (some v))).state.subscriptionId = s.subscriptionId ∧
      (handleMessage s (Frame.strData (some v))).state.stopped = s.stopped ∧
      (handleMessage s (Frame.strData (some v))).faulted = false) ∧
    (sEq (jsGetOpt v "result") (some (.bool true)) = false →
      (handleMessage s (Frame.strData (some v))).state = s) := by
  have h1 : sEq (jsGetOpt v "id") (some (JVal.num 1)) = false := by
    rw [hid]; decide
  constructor
  · intro hr
    have h2 : (sEq (jsGetOpt v "id") (some (JVal.num 2))
        && sEq (jsGetOpt v "result") (some (JVal.bool true))) = true := by
      rw [hid, hr]; decide
    simp [handleMessage, handleParsed, h1, h2]
  · intro hr
    have h2 : (sEq (jsGetOpt v "id") (some (JVal.num 2))
        && sEq (jsGetOpt v "result") (some (JVal.bool true))) = false := by
      rw [hid, hr]; decide
    simp only [handleMessage, handleParsed, h1, h2, Bool.false_eq_true, if_false]
    split
    · split
      · rfl
      · rfl
      · split <;> rfl
    · rfl

/-- Claim C10 witness: a pong with result true clears the armed timer;
a pong with result false leaves the state untouched. -/
theorem c10_pong_cleared_iff_result_true_witness :
    (handleMessage msgAbcPing (Frame.strData (some pongTrueFrame))).state.pingTimeout
      = false ∧
    (handleMessage msgAbcPing (Frame.strData (some pongFalseFrame))).state = msgAbcPing :=
  ⟨((c10_pong_cleared_iff_result_true msgAbcPing pongTrueFrame rfl rfl).1 (by decide)).1,
   (c10_pong_cleared_iff_result_true msgAbcPing pongFalseFrame rfl rfl).2 (by decide)⟩

end WebsocketCryptIT
